import Mathlib

/-!
Verification of the EnglishLearningWeb backend AI-request pipeline
(`backend/clients/openai_client.py`, `backend/utils/decorators.py`,
`backend/config.py`).

The Python code is shallowly embedded: the regex-based fallback parsing
functions are modelled with a small backtracking pattern matcher that follows
Python `re` semantics (leftmost search position, greedy quantifiers with
backtracking, optional IGNORECASE) for the concrete patterns the source uses;
JSON decoding (`json.loads`) is modelled by an executable recursive-descent
reader; the retry decorator is modelled as a pure loop returning the result,
the number of invocations of the wrapped function, and the list of sleep
delays.
-/

/-! ## Python string helpers -/

/-- Python `\s` whitespace class (ASCII part): space, tab, newline, carriage
return, vertical tab, form feed. -/
def isPySpace (c : Char) : Bool :=
  c = ' ' || c = '\t' || c = '\n' || c = '\r' || c = '\x0b' || c = '\x0c'

/-- The double-quote character (code 34). -/
def isDQuote (c : Char) : Bool := c.toNat = 34

/-- The single-quote character (code 39). -/
def isSQuote (c : Char) : Bool := c.toNat = 39

/-- Characters stripped by Python's `.strip('"\x27')`. -/
def quoteClass (c : Char) : Bool := isDQuote c || isSQuote c

/-- Python `s.strip(chars)`: remove leading and trailing characters drawn from
the class `p`. -/
def stripChars (p : Char → Bool) (s : String) : String :=
  String.mk (((s.data.dropWhile p).reverse.dropWhile p).reverse)

/-- Python `s.strip()` (ASCII whitespace). -/
def pyStrip (s : String) : String := stripChars isPySpace s

/-- Python `s.lower()` (ASCII case folding). -/
def pyLower (s : String) : String := String.mk (s.data.map Char.toLower)

/-- Python `s.startswith(pre)`. -/
def pyStartsWith (s pre : String) : Bool := pre.data.isPrefixOf s.data

/-- Python `len(s)`: number of characters. -/
def pyLen (s : String) : Nat := s.data.length

/-- Helper for `pySplit`: accumulate the current piece (reversed). -/
def pySplitAux (p : Char → Bool) : List Char → List Char → List String
  | [], acc => [String.mk acc.reverse]
  | c :: t, acc =>
    if p c then String.mk acc.reverse :: pySplitAux p t []
    else pySplitAux p t (c :: acc)

/-- Python `s.split(sep)` for a one-character separator class / `re.split`
with a one-character class: split at every separator, keeping empty pieces. -/
def pySplit (p : Char → Bool) (s : String) : List String := pySplitAux p s.data []

/-- Python `sub in s` for strings: substring containment. -/
def strContains (s sub : String) : Bool :=
  s.data.tails.any (fun t => sub.data.isPrefixOf t)

/-! ## A small Python-`re` pattern matcher

Each concrete pattern of the source is a linear sequence of items
(case-insensitive literal, single-character class, greedy `*`, `+`, `?`)
around a single capture group.  Matching enumerates remainders in exactly the
priority order of Python's backtracking engine (greedy first, rightmost item
backtracks first), and `search` scans candidate start positions left to
right, as `re.search` does. -/

/-- One item of a linear regular expression. -/
inductive RItem where
  | lit : List Char → RItem
  | one : (Char → Bool) → RItem
  | star : (Char → Bool) → RItem
  | plus : (Char → Bool) → RItem
  | opt : (Char → Bool) → RItem

/-- Strip a case-insensitive literal from the front of the input. -/
def stripLitCI : List Char → List Char → Option (List Char)
  | [], s => some s
  | _ :: _, [] => none
  | l :: ls, c :: cs => if l.toLower = c.toLower then stripLitCI ls cs else none

/-- Remainders after consuming a run of `p`-characters, longest consumed
first (the greedy backtracking order of `p*`). -/
def runSplits (p : Char → Bool) : List Char → List (List Char)
  | [] => [[]]
  | c :: t => if p c then runSplits p t ++ [c :: t] else [c :: t]

/-- All remainders of the input after matching the item sequence, in
backtracking priority order (first element = the match Python commits to). -/
def matchSeq : List RItem → List Char → List (List Char)
  | [], s => [s]
  | .lit l :: rs, s =>
    match stripLitCI l s with
    | some t => matchSeq rs t
    | none => []
  | .one p :: rs, s =>
    match s with
    | c :: t => if p c then matchSeq rs t else []
    | [] => []
  | .star p :: rs, s => (runSplits p s).flatMap (matchSeq rs)
  | .plus p :: rs, s =>
    match s with
    | c :: t => if p c then (runSplits p t).flatMap (matchSeq rs) else []
    | [] => []
  | .opt p :: rs, s =>
    match s with
    | c :: t => if p c then matchSeq rs t ++ matchSeq rs s else matchSeq rs s
    | [] => matchSeq rs s

/-- A linear pattern with one capture group. -/
structure Pattern where
  pre : List RItem
  grp : List RItem
  post : List RItem

/-- Try the pattern anchored at the start of `s`; return group(1) of the
highest-priority full match, if any. -/
def matchAt (pat : Pattern) (s : List Char) : Option (List Char) :=
  ((matchSeq pat.pre s).flatMap fun r1 =>
    (matchSeq pat.grp r1).flatMap fun r2 =>
      (matchSeq pat.post r2).map fun _ =>
        r1.take (r1.length - r2.length)).head?

/-- Scan start positions left to right (Python `re.search`). -/
def searchAux (pat : Pattern) : List Char → Option (List Char)
  | [] => matchAt pat []
  | c :: t =>
    match matchAt pat (c :: t) with
    | some cap => some cap
    | none => searchAux pat t

/-- `re.search(pat, s)` returning `group(1)` of the match, if any. -/
def reSearch (pat : Pattern) (s : String) : Option String :=
  (searchAux pat s.data).map String.mk

/-- First pattern of the list that matches wins (the source loops over its
pattern lists and breaks at the first match). -/
def firstSearch (pats : List Pattern) (s : String) : Option String :=
  match pats with
  | [] => none
  | p :: ps =>
    match reSearch p s with
    | some cap => some cap
    | none => firstSearch ps s

/-! ## The concrete patterns of `openai_client.py` -/

/-- The class `[:\s]`. -/
def sepClass (c : Char) : Bool := c = ':' || isPySpace c

/-- The class `[^"\x27\n]`. -/
def valueClass (c : Char) : Bool := !(isDQuote c || isSQuote c || c = '\n')

/-- The class `[^.\n]`. -/
def noDotClass (c : Char) : Bool := !(c = '.' || c = '\n')

/-- Pattern `LABEL[:\s]*["\x27]?([^"\x27\n]+)["\x27]?` (IGNORECASE). -/
def labelValue (lbl : String) : Pattern :=
  { pre := [.lit lbl.data, .star sepClass, .opt quoteClass],
    grp := [.plus valueClass],
    post := [.opt quoteClass] }

/-- Pattern `LABEL[:\s]*([^.\n]+)` (IGNORECASE). -/
def labelNoDot (lbl : String) : Pattern :=
  { pre := [.lit lbl.data, .star sepClass], grp := [.plus noDotClass], post := [] }

/-- Pattern `/([^/]+)/`. -/
def slashPattern : Pattern :=
  { pre := [.one (· = '/')], grp := [.plus (· ≠ '/')], post := [.one (· = '/')] }

/-- Pattern `\[([^\]]+)\]`. -/
def bracketPattern : Pattern :=
  { pre := [.one (· = '[')], grp := [.plus (· ≠ ']')], post := [.one (· = ']')] }

/-- `translation_patterns` of `_parse_flashcard_from_text`. -/
def translation_patterns : List Pattern :=
  [labelValue "translation", labelValue "translated", labelValue "means",
   labelValue "definition"]

/-- `pronunciation_patterns` of `_parse_flashcard_from_text`. -/
def pronunciation_patterns : List Pattern :=
  [labelValue "pronunciation", labelValue "IPA", slashPattern, bracketPattern]

/-- `synonyms_patterns` of `_parse_flashcard_from_text`
(`synonyms[:\s]*\[([^\]]+)\]`, `synonyms[:\s]*([^.\n]+)`,
`similar words[:\s]*([^.\n]+)`). -/
def synonyms_patterns : List Pattern :=
  [{ pre := [.lit "synonyms".data, .star sepClass, .one (· = '[')],
     grp := [.plus (· ≠ ']')], post := [.one (· = ']')] },
   labelNoDot "synonyms",
   labelNoDot "similar words"]

/-- `corrected_patterns` of `_parse_grammar_from_text`. -/
def corrected_patterns : List Pattern :=
  [labelValue "corrected text", labelValue "corrected", labelValue "correction",
   labelValue "fixed"]

/-- An optional `s`/`S` (the `s?` of `errors?` etc. under IGNORECASE). -/
def optS : RItem := .opt (fun c => c.toLower = 's')

/-- `error_patterns` of `_parse_grammar_from_text`
(`errors?[:\s]*\[([^\]]+)\]`, `errors?[:\s]*([^.\n]+)`,
`mistakes?[:\s]*([^.\n]+)`, `problems?[:\s]*([^.\n]+)`). -/
def error_patterns : List Pattern :=
  [{ pre := [.lit "error".data, optS, .star sepClass, .one (· = '[')],
     grp := [.plus (· ≠ ']')], post := [.one (· = ']')] },
   { pre := [.lit "error".data, optS, .star sepClass],
     grp := [.plus noDotClass], post := [] },
   { pre := [.lit "mistake".data, optS, .star sepClass],
     grp := [.plus noDotClass], post := [] },
   { pre := [.lit "problem".data, optS, .star sepClass],
     grp := [.plus noDotClass], post := [] }]

/-! ## `_parse_flashcard_from_text` -/

/-- The result dictionary shape of `_parse_flashcard_from_text`. -/
structure Flashcard where
  word : String
  translatedWord : String
  pronunciation : String
  synonyms : List String
deriving DecidableEq, Repr

/-- `s.strip().strip('"\x27')` applied to one comma/semicolon-separated item. -/
def cleanItem (s : String) : String := stripChars quoteClass (pyStrip s)

/-- `re.split(r'[,;]', t)` on the already-stripped matched span, each item
cleaned, keeping only truthy items longer than 1 character (the synonym
filter of the source). -/
def synItems (synonyms_text : String) : List String :=
  ((pySplit (fun c => c = ',' || c = ';') synonyms_text).map cleanItem).filter
    (fun s => s ≠ "" && 1 < pyLen s)

/-- The translation scan: first matching pattern's `group(1).strip()`. -/
def scan_translation (t : String) : Option String :=
  (firstSearch translation_patterns t).map pyStrip

/-- The pronunciation scan: first matching pattern's `group(1).strip()`. -/
def scan_pronunciation (t : String) : Option String :=
  (firstSearch pronunciation_patterns t).map pyStrip

/-- The synonym scan: first matching pattern's span, stripped, split, cleaned,
filtered, and capped at 3 (`[:3]`). -/
def scan_synonyms (t : String) : Option (List String) :=
  (firstSearch synonyms_patterns t).map (fun cap => (synItems (pyStrip cap)).take 3)

/-- The `if line and not line.startswith(word) and len(line) < 50` test of the
line-based translation fallback. -/
def usable_line (word l : String) : Bool :=
  l ≠ "" && !(pyStartsWith l word) && pyLen l < 50

/-- The line-based translation fallback: first usable stripped line of the
response split on newlines. -/
def lineFallback (text_response word : String) : Option String :=
  ((pySplit (· = '\n') text_response).map pyStrip).find? (usable_line word)

/-- The fixed default synonym list of the source. -/
def default_synonyms : List String := ["similar", "equivalent", "related"]

/-- The `translatedWord` computation of `_parse_flashcard_from_text`: the
pattern scan, then the usable-line fallback, then the literal sentinel. -/
def flashcard_translated (text_response word : String) : String :=
  let t0 := (scan_translation text_response).getD ""
  let t1 := if t0 = "" then (lineFallback text_response word).getD "" else t0
  if t1 = "" then "Translation not available" else t1

/-- The `pronunciation` computation of `_parse_flashcard_from_text`: the
pattern scan, defaulting to the slash-wrapped original word (`f"/{word}/"`). -/
def flashcard_pronunciation (text_response word : String) : String :=
  let p0 := (scan_pronunciation text_response).getD ""
  if p0 = "" then "/" ++ word ++ "/" else p0

/-- The `synonyms` computation of `_parse_flashcard_from_text`: the pattern
scan, defaulting to the fixed generic list. -/
def flashcard_synonyms (text_response : String) : List String :=
  let s0 := (scan_synonyms text_response).getD []
  if s0 = [] then default_synonyms else s0

/-- `OpenAIClient._parse_flashcard_from_text`.  The Python body is wrapped in
a `try/except` but performs no raising operation, so the embedding is total
and the `None` branch is unreachable. -/
def parse_flashcard_from_text (text_response word : String) : Flashcard :=
  { word := word,
    translatedWord := flashcard_translated text_response word,
    pronunciation := flashcard_pronunciation text_response word,
    synonyms := flashcard_synonyms text_response }

/-! ## `_parse_grammar_from_text` -/

/-- The result dictionary shape of `_parse_grammar_from_text`. -/
structure GrammarResult where
  correctedText : String
  errors : List String
deriving DecidableEq, Repr

/-- The label fragments removed from the front of a matched correction
(`prefixes_to_remove` in the source). -/
def labelFragments : List String := ["text:", "the text:", "sentence:"]

/-- Remove the first matching label fragment (then re-strip), as the
source's prefix-cleanup loop does. -/
def removeLabelFragment (s : String) : String :=
  match labelFragments.find? (fun p => pyStartsWith (pyLower s) p) with
  | some p => pyStrip (String.mk (s.data.drop (pyLen p)))
  | none => s

/-- Post-processing of a matched correction span: `strip()`, label-fragment
removal, `strip('"\x27')`. -/
def cleanCorrected (cap : String) : String :=
  stripChars quoteClass (removeLabelFragment (pyStrip cap))

/-- Sentence terminators `[.!?]`. -/
def sentence_end (c : Char) : Bool := c = '.' || c = '!' || c = '?'

/-- State machine equivalent to `re.findall(r'[A-Z][^.!?]*[.!?]', s)`: outside
a sentence, an ASCII uppercase letter starts one; inside, characters are
consumed until a terminator, which emits the sentence (matches are
non-overlapping and a start with no later terminator never matches). -/
def findSentencesAux : List Char → Option (List Char) → List String
  | [], _ => []
  | c :: t, none =>
    if 'A' ≤ c && c ≤ 'Z' then findSentencesAux t (some [c])
    else findSentencesAux t none
  | c :: t, some acc =>
    if sentence_end c then String.mk (acc.reverse ++ [c]) :: findSentencesAux t none
    else findSentencesAux t (some (c :: acc))

/-- `re.findall(r'[A-Z][^.!?]*[.!?]', s)`. -/
def find_sentences (s : String) : List String := findSentencesAux s.data none

/-- Python `\w` (ASCII part): alphanumeric or underscore. -/
def isWordChar (c : Char) : Bool := c.isAlphanum || c = '_'

/-- The alternation of `\b(error|mistake|wrong|incorrect)\b`. -/
def error_words : List (List Char) :=
  ["error".data, "mistake".data, "wrong".data, "incorrect".data]

/-- Does one of the words match at the start of `s`, ending at a word
boundary? -/
def wordHere (s : List Char) : Bool :=
  error_words.any fun w =>
    match stripLitCI w s with
    | some [] => true
    | some (c :: _) => !isWordChar c
    | none => false

/-- Scan for a word occurrence with a boundary on both sides, tracking the
previous character. -/
def containsErrorWordAux : Option Char → List Char → Bool
  | _, [] => false
  | prev, c :: t =>
    let boundary :=
      match prev with
      | none => true
      | some pc => !isWordChar pc
    (boundary && wordHere (c :: t)) || containsErrorWordAux (some c) t

/-- `re.search(r'\b(error|mistake|wrong|incorrect)\b', s, re.IGNORECASE)`
viewed as a containment test. -/
def contains_error_word (s : String) : Bool := containsErrorWordAux none s.data

/-- The error scan of `_parse_grammar_from_text`: first matching pattern's
span, stripped, split on `[,;]`, items cleaned and filtered to length > 3. -/
def scan_errors (t : String) : Option (List String) :=
  (firstSearch error_patterns t).map fun cap =>
    ((pySplit (fun c => c = ',' || c = ';') (pyStrip cap)).map cleanItem).filter
      (fun e => e ≠ "" && 3 < pyLen e)

/-- The corrected-text computation of `_parse_grammar_from_text`: pattern
scan with cleanup, defaulting to the original text; if the result equals the
original exactly, fall back to the first found sentence that does not contain
an error-indicating word. -/
def grammar_corrected (text_response original_text : String) : String :=
  let c0 :=
    match firstSearch corrected_patterns text_response with
    | some cap => cleanCorrected cap
    | none => original_text
  if c0 = original_text then
    match (find_sentences text_response).find? (fun s => !(contains_error_word s)) with
    | some sentence => pyStrip sentence
    | none => c0
  else c0

/-- The error-list computation of `_parse_grammar_from_text`: the scanned
list, or, when it is empty, the case-insensitive comparison of the corrected
text with the original chooses between the two sentinel lists. -/
def grammar_errors (text_response original_text : String) : List String :=
  let e0 := (scan_errors text_response).getD []
  if e0 = [] then
    if pyLower (grammar_corrected text_response original_text) = pyLower original_text
    then ["No grammar errors found"]
    else ["Grammar corrections applied"]
  else e0

/-- `OpenAIClient._parse_grammar_from_text`.  As with the flashcard variant,
the `try/except` wrapper guards no raising operation, so the embedding is
total. -/
def parse_grammar_from_text (text_response original_text : String) : GrammarResult :=
  { correctedText := grammar_corrected text_response original_text,
    errors := grammar_errors text_response original_text }

/-! ## `check_ai_probability`: number extraction and clamping -/

/-- First maximal digit run of the text (`re.findall(r'\d+', t)[0]`). -/
def firstDigitRun : List Char → Option (List Char)
  | [] => none
  | c :: t => if c.isDigit then some (c :: t.takeWhile Char.isDigit) else firstDigitRun t

/-- Decimal value of a digit run (`int(...)` on a digit string). -/
def digitsToNat (ds : List Char) : Nat :=
  ds.foldl (fun acc c => 10 * acc + (c.toNat - '0'.toNat)) 0

/-- The response-processing step of `OpenAIClient.check_ai_probability`, given
the extracted response text: take the first integer substring, clamp with
`max(0, min(100, p))`; with no number, return the fixed neutral 50. -/
def check_ai_probability_of_text (response_text : String) : Nat :=
  match firstDigitRun response_text.data with
  | some ds => max 0 (min 100 (digitsToNat ds))
  | none => 50

/-! ## JSON values and a model of `json.loads` -/

/-- JSON values (numbers approximated by their integer part; only
acceptance/rejection and object/array/string structure matter here). -/
inductive Json where
  | null
  | bool (b : Bool)
  | num (n : Int)
  | str (s : String)
  | arr (elems : List Json)
  | obj (fields : List (String × Json))

/-- JSON inter-token whitespace. -/
def jsonWs (c : Char) : Bool := c = ' ' || c = '\t' || c = '\n' || c = '\r'

/-- Skip JSON whitespace. -/
def skipWs : List Char → List Char
  | [] => []
  | c :: t => if jsonWs c then skipWs t else c :: t

/-- Strip a case-sensitive literal. -/
def stripLit : List Char → List Char → Option (List Char)
  | [], s => some s
  | _ :: _, [] => none
  | l :: ls, c :: cs => if l = c then stripLit ls cs else none

/-- Hexadecimal digit. -/
def isHexDigit (c : Char) : Bool :=
  c.isDigit || ('a' ≤ c && c ≤ 'f') || ('A' ≤ c && c ≤ 'F')

/-- Value of a hexadecimal digit. -/
def hexVal (c : Char) : Nat :=
  if c.isDigit then c.toNat - '0'.toNat
  else if 'a' ≤ c && c ≤ 'f' then c.toNat - 'a'.toNat + 10
  else c.toNat - 'A'.toNat + 10

/-- Single-character escapes of JSON strings. -/
def escChar (c : Char) : Option Char :=
  if isDQuote c then some c
  else if isSQuote c then none
  else if c = '\\' then some '\\'
  else if c = '/' then some '/'
  else if c = 'b' then some '\x08'
  else if c = 'f' then some '\x0c'
  else if c = 'n' then some '\n'
  else if c = 'r' then some '\r'
  else if c = 't' then some '\t'
  else none

/-- Parse the body of a JSON string after the opening quote; returns the
decoded characters and the remainder after the closing quote. -/
def parseStringAux : List Char → Option (List Char × List Char)
  | [] => none
  | c :: t =>
    if isDQuote c then some ([], t)
    else if c = '\\' then
      match t with
      | [] => none
      | e :: t2 =>
        if e = 'u' then
          match t2 with
          | a :: b :: c2 :: d :: t3 =>
            if isHexDigit a && isHexDigit b && isHexDigit c2 && isHexDigit d then
              match parseStringAux t3 with
              | some (rest, rem) =>
                some (Char.ofNat (((hexVal a * 16 + hexVal b) * 16 + hexVal c2) * 16 + hexVal d) :: rest, rem)
              | none => none
            else none
          | _ => none
        else
          match escChar e with
          | some ec =>
            match parseStringAux t2 with
            | some (rest, rem) => some (ec :: rest, rem)
            | none => none
          | none => none
    else if c.toNat < 32 then none
    else
      match parseStringAux t with
      | some (rest, rem) => some (c :: rest, rem)
      | none => none

/-- JSON integer part: `0` or a nonzero digit followed by digits. -/
def parseIntPart : List Char → Option (List Char × List Char)
  | [] => none
  | c :: t =>
    if c = '0' then some ([c], t)
    else if c.isDigit then some (c :: t.takeWhile Char.isDigit, t.dropWhile Char.isDigit)
    else none

/-- Optional JSON fraction part; returns the remainder. -/
def parseFrac : List Char → Option (List Char)
  | [] => some []
  | c :: t =>
    if c = '.' then
      if (t.takeWhile Char.isDigit) = [] then none
      else some (t.dropWhile Char.isDigit)
    else some (c :: t)

/-- Optional JSON exponent part; returns the remainder. -/
def parseExp : List Char → Option (List Char)
  | [] => some []
  | c :: t =>
    if c = 'e' || c = 'E' then
      let t2 := match t with
        | s :: ts => if s = '+' || s = '-' then ts else t
        | [] => t
      if (t2.takeWhile Char.isDigit) = [] then none
      else some (t2.dropWhile Char.isDigit)
    else some (c :: t)

/-- JSON number (value approximated by the signed integer part). -/
def parseNumber (s : List Char) : Option (Json × List Char) :=
  let signSplit : Bool × List Char :=
    match s with
    | c :: t => if c = '-' then (true, t) else (false, s)
    | [] => (false, [])
  match parseIntPart signSplit.2 with
  | none => none
  | some (ds, r1) =>
    match parseFrac r1 with
    | none => none
    | some r2 =>
      match parseExp r2 with
      | none => none
      | some r3 =>
        let n : Int := Int.ofNat (digitsToNat ds)
        some (.num (if signSplit.1 then -n else n), r3)

mutual

/-- One JSON value (recursive descent, fuel-bounded; the fuel passed by
`jsonParse` always suffices because every recursive step consumes input). -/
def parseValue : Nat → List Char → Option (Json × List Char)
  | 0, _ => none
  | fuel + 1, s0 =>
    match skipWs s0 with
    | [] => none
    | c :: t =>
      if isDQuote c then
        match parseStringAux t with
        | some (cs, rest) => some (.str (String.mk cs), rest)
        | none => none
      else if c = '{' then
        match skipWs t with
        | c2 :: r =>
          if c2 = '}' then some (.obj [], r) else parseMembers fuel t []
        | [] => none
      else if c = '[' then
        match skipWs t with
        | c2 :: r =>
          if c2 = ']' then some (.arr [], r) else parseElements fuel t []
        | [] => none
      else if c = 'n' then
        match stripLit "ull".data t with
        | some rest => some (.null, rest)
        | none => none
      else if c = 't' then
        match stripLit "rue".data t with
        | some rest => some (.bool true, rest)
        | none => none
      else if c = 'f' then
        match stripLit "alse".data t with
        | some rest => some (.bool false, rest)
        | none => none
      else parseNumber (c :: t)

/-- Comma-separated array elements up to `]`. -/
def parseElements : Nat → List Char → List Json → Option (Json × List Char)
  | 0, _, _ => none
  | fuel + 1, s, acc =>
    match parseValue fuel s with
    | none => none
    | some (v, r) =>
      match skipWs r with
      | c :: r2 =>
        if c = ',' then parseElements fuel r2 (v :: acc)
        else if c = ']' then some (.arr (v :: acc).reverse, r2)
        else none
      | [] => none

/-- Comma-separated `"key": value` object members up to `}`. -/
def parseMembers : Nat → List Char → List (String × Json) → Option (Json × List Char)
  | 0, _, _ => none
  | fuel + 1, s, acc =>
    match skipWs s with
    | c :: t =>
      if isDQuote c then
        match parseStringAux t with
        | some (k, r) =>
          match skipWs r with
          | c2 :: r2 =>
            if c2 = ':' then
              match parseValue fuel r2 with
              | none => none
              | some (v, r3) =>
                match skipWs r3 with
                | c3 :: r4 =>
                  if c3 = ',' then parseMembers fuel r4 ((String.mk k, v) :: acc)
                  else if c3 = '}' then some (.obj ((String.mk k, v) :: acc).reverse, r4)
                  else none
                | [] => none
            else none
          | [] => none
        | none => none
      else none
    | [] => none

end

/-- Model of `json.loads`: parse one JSON document with nothing but
whitespace after it; `none` is a `json.JSONDecodeError`. -/
def jsonParse (s : String) : Option Json :=
  match parseValue (s.data.length + 1) s.data with
  | some (v, rest) => if skipWs rest = [] then some v else none
  | none => none

/-! ## Python dictionary/list semantics for `_extract_function_response` -/

/-- The exception classes that can arise in `_extract_function_response`. -/
inductive PyExc where
  | keyError
  | indexError
  | typeError
  | jsonDecodeError
deriving DecidableEq, Repr

/-- Dictionary lookup (first binding wins, as in a Python dict there is at
most one binding per key). -/
def jlookup (fields : List (String × Json)) (k : String) : Option Json :=
  (fields.find? (fun kv => kv.1 = k)).map (fun kv => kv.2)

/-- Python `k in container` for a string `k`: key test on dicts, membership
on lists, substring test on strings; `TypeError` otherwise. -/
def pyIn (k : String) (container : Json) : Except PyExc Bool :=
  match container with
  | .obj fields => .ok (jlookup fields k).isSome
  | .arr elems =>
    .ok (elems.any (fun v => match v with | .str s => s = k | _ => false))
  | .str s => .ok (strContains s k)
  | _ => .error .typeError

/-- Python `container[k]` for a string key. -/
def pyGetStr (container : Json) (k : String) : Except PyExc Json :=
  match container with
  | .obj fields =>
    match jlookup fields k with
    | some v => .ok v
    | none => .error .keyError
  | _ => .error .typeError

/-- Python `container[i]` for a non-negative integer index. -/
def pyGetNat (container : Json) (i : Nat) : Except PyExc Json :=
  match container with
  | .arr elems =>
    match elems[i]? with
    | some v => .ok v
    | none => .error .indexError
  | .str s =>
    match s.data[i]? with
    | some c => .ok (.str (String.mk [c]))
    | none => .error .indexError
  | .obj _ => .error .keyError
  | _ => .error .typeError

/-- Python truthiness of a JSON-shaped value. -/
def pyTruthy : Json → Bool
  | .null => false
  | .bool b => b
  | .num n => n ≠ 0
  | .str s => s ≠ ""
  | .arr l => !l.isEmpty
  | .obj f => !f.isEmpty

/-- The body of `OpenAIClient._extract_function_response` before its
`except` clause: each Python subscript/membership/parse step either produces
a value or raises. -/
def extract_function_response_body (api_response : Json) : Except PyExc (Option Json) :=
  match pyIn "choices" api_response with
  | .error e => .error e
  | .ok has =>
    if !has then .ok none
    else
      match pyGetStr api_response "choices" with
      | .error e => .error e
      | .ok choices =>
        if !pyTruthy choices then .ok none
        else
          match pyGetNat choices 0 with
          | .error e => .error e
          | .ok choice0 =>
            match pyGetStr choice0 "message" with
            | .error e => .error e
            | .ok message =>
              match pyIn "function_call" message with
              | .error e => .error e
              | .ok hasFC =>
                if !hasFC then .ok none
                else
                  match pyGetStr message "function_call" with
                  | .error e => .error e
                  | .ok function_call =>
                    if !pyTruthy function_call then .ok none
                    else
                      match pyIn "arguments" function_call with
                      | .error e => .error e
                      | .ok hasArgs =>
                        if !hasArgs then .ok none
                        else
                          match pyGetStr function_call "arguments" with
                          | .error e => .error e
                          | .ok args =>
                            match args with
                            | .str s =>
                              match jsonParse s with
                              | some v => .ok (some v)
                              | none => .error .jsonDecodeError
                            | _ => .error .typeError

/-- `OpenAIClient._extract_function_response`: the `except (KeyError,
json.JSONDecodeError, IndexError)` clause converts those three exception
kinds to `None`; any other exception (`TypeError`) propagates. -/
def extract_function_response (api_response : Json) : Except PyExc (Option Json) :=
  match extract_function_response_body api_response with
  | .ok v => .ok v
  | .error .keyError => .ok none
  | .error .jsonDecodeError => .ok none
  | .error .indexError => .ok none
  | .error .typeError => .error .typeError

/-- The malformed API-response shapes named by the structured-extraction
totality property: a response dictionary with no `choices` key, one with an
empty `choices` list, and one whose first choice carries a (truthy)
`function_call` whose `arguments` string is not valid JSON. -/
def MalformedApiResponse (api : Json) : Prop :=
  (∃ fields, api = .obj fields ∧ jlookup fields "choices" = none)
  ∨ (∃ fields, api = .obj fields ∧ jlookup fields "choices" = some (.arr []))
  ∨ (∃ fields c0 rest msg fc s,
      api = .obj fields
      ∧ jlookup fields "choices" = some (.arr (Json.obj c0 :: rest))
      ∧ jlookup c0 "message" = some (.obj msg)
      ∧ jlookup msg "function_call" = some (.obj fc)
      ∧ fc ≠ []
      ∧ jlookup fc "arguments" = some (.str s)
      ∧ jsonParse s = none)

/-! ## `retry_on_failure` and the request/exception classification -/

/-- The exception kinds relevant to `_make_api_request` and its retry
decorator: `aiohttp.ClientError`, `asyncio.TimeoutError`, `APIException`
(with its `status_code` and `error_code` fields), and any unrelated
exception class. -/
inductive Exc where
  | clientError
  | timeoutError
  | apiException (status_code : Option Nat) (error_code : Option String)
  | otherException
deriving DecidableEq, Repr

/-- The `exceptions=(aiohttp.ClientError, asyncio.TimeoutError,
APIException)` tuple passed to `retry_on_failure` in `openai_client.py`. -/
def openai_retry_exceptions : Exc → Bool
  | .clientError => true
  | .timeoutError => true
  | .apiException _ _ => true
  | .otherException => false

/-- How one HTTP attempt of `_make_api_request` can end. -/
inductive HttpOutcome where
  | response (status : Nat) (body : String)
  | networkError
  | timeout

/-- One un-retried attempt of `_make_api_request`: a 200 body parses as JSON
or raises `APIException(status_code=200)`; a non-200 status raises
`APIException(status_code=status)`; `aiohttp.ClientError` and
`asyncio.TimeoutError` are caught inside the body and re-raised as
`APIException` with the corresponding `error_code`. -/
def make_api_request_once (o : HttpOutcome) : Except Exc Json :=
  match o with
  | .response status body =>
    if status = 200 then
      match jsonParse body with
      | some result => .ok result
      | none => .error (.apiException (some 200) none)
    else .error (.apiException (some status) none)
  | .networkError => .error (.apiException none (some "NETWORK_ERROR"))
  | .timeout => .error (.apiException none (some "TIMEOUT_ERROR"))

/-- The `for attempt in range(max_retries + 1)` loop of `retry_on_failure`:
returns the final outcome, the number of invocations of the wrapped
function, and the list of sleep delays, tracking `current_delay *=
backoff_factor`.  An exception outside the configured tuple propagates
immediately; at the last attempt the exception is re-raised. -/
def retryLoop {α : Type} (exceptions : Exc → Bool) (f : Nat → Except Exc α)
    (backoff_factor : ℚ) : Nat → Nat → ℚ → Except Exc α × Nat × List ℚ
  | attempt, 0, _ =>
    match f attempt with
    | .ok a => (.ok a, 1, [])
    | .error e => (.error e, 1, [])
  | attempt, remaining + 1, current_delay =>
    match f attempt with
    | .ok a => (.ok a, 1, [])
    | .error e =>
      if exceptions e then
        let rest := retryLoop exceptions f backoff_factor (attempt + 1) remaining
          (current_delay * backoff_factor)
        (rest.1, rest.2.1 + 1, current_delay :: rest.2.2)
      else (.error e, 1, [])

/-- `retry_on_failure(max_retries, delay, backoff_factor, exceptions)`
applied to a wrapped function `f` (indexed by attempt number). -/
def retry_on_failure {α : Type} (max_retries : Nat) (delay backoff_factor : ℚ)
    (exceptions : Exc → Bool) (f : Nat → Except Exc α) :
    Except Exc α × Nat × List ℚ :=
  retryLoop exceptions f backoff_factor 0 max_retries delay

/-- `Config.MAX_RETRIES` default. -/
def Config_MAX_RETRIES : Nat := 3

/-- `Config.RETRY_DELAY` default. -/
def Config_RETRY_DELAY : ℚ := 1

/-- The `backoff_factor` default of `retry_on_failure` (the decorator call in
`openai_client.py` does not override it). -/
def default_backoff_factor : ℚ := 2

/-! ## `OpenAIClient.__init__` and the credential check -/

/-- The configuration slice consulted by `OpenAIClient.__init__`
(`Config.OPENAI_API_KEY`, unset or a string). -/
structure ConfigState where
  OPENAI_API_KEY : Option String
deriving DecidableEq, Repr

/-- Python falsiness of the credential: unset (`None`) or the empty string. -/
def missing_api_key (k : Option String) : Bool :=
  match k with
  | none => true
  | some s => s = ""

/-- `ConfigurationException("OpenAI API key is required but not configured",
config_key="OPENAI_API_KEY")`. -/
inductive ConfigurationException where
  | missingKey (config_key : String)
deriving DecidableEq, Repr

/-- The client state built by `__init__` (`self._session = None`). -/
structure OpenAIClientState where
  session : Option Unit
deriving DecidableEq, Repr

/-- `OpenAIClient.__init__`: validates the configuration before anything
else; a missing credential raises `ConfigurationException` and no client
state (hence no session, no request) is ever produced. -/
def OpenAIClient_init (cfg : ConfigState) : Except ConfigurationException OpenAIClientState :=
  if missing_api_key cfg.OPENAI_API_KEY then
    .error (.missingKey "OPENAI_API_KEY")
  else .ok { session := none }

/-! ## Calling the decorated `_make_api_request` and awaiting it

The decorator stack is `retry_on_failure` over `log_execution_time` over
`validate_api_key` over an `async def`.  `validate_api_key` installs a plain
synchronous wrapper, so `asyncio.iscoroutinefunction` is false for the
wrapped stack, and `log_execution_time` and `retry_on_failure` therefore
install their synchronous wrappers as well.  A synchronous call of an
`async def` only CREATES the coroutine — the request body has not run yet —
so the retry loop's first attempt returns that un-awaited coroutine without
raising, and the body executes only at the caller's `await`, outside every
wrapper `try`.  In the model an `HttpOutcome` value stands for the
un-awaited coroutine (the suspended body together with the network outcome
it will meet when run). -/

/-- `validate_api_key`'s synchronous wrapper: re-check the credential, then
call the wrapped function, which returns the un-awaited coroutine; a falsy
key raises `APIException` with error code `MISSING_API_KEY`. -/
def validate_api_key_call (key : Option String) (body : HttpOutcome) :
    Except Exc HttpOutcome :=
  if missing_api_key key then .error (.apiException none (some "MISSING_API_KEY"))
  else .ok body

/-- `log_execution_time`'s synchronous wrapper: time the call, log, and
re-raise any exception — semantically the identity on the outcome. -/
def log_execution_time_call (r : Except Exc HttpOutcome) : Except Exc HttpOutcome := r

/-- Calling the decorated `_make_api_request`: the retry loop runs over the
synchronous wrapper chain, whose success value is the un-awaited coroutine.
Returns the loop result, the number of invocations of the chain, and the
sleeps performed. -/
def make_api_request_call (key : Option String) (o : HttpOutcome) :
    Except Exc HttpOutcome × Nat × List ℚ :=
  retry_on_failure Config_MAX_RETRIES Config_RETRY_DELAY default_backoff_factor
    openai_retry_exceptions
    (fun _ => log_execution_time_call (validate_api_key_call key o))

/-- The caller's `await` on what the decorated call produced: only here does
the request body execute — once — and an exception it raises propagates
directly to the caller.  Returns the awaited result, the number of times the
body ran, and the sleeps performed by the retry loop. -/
def make_api_request_awaited (key : Option String) (o : HttpOutcome) :
    Except Exc Json × Nat × List ℚ :=
  match make_api_request_call key o with
  | (.ok coro, _, sleeps) => (make_api_request_once coro, 1, sleeps)
  | (.error e, _, sleeps) => (.error e, 0, sleeps)

/-! ## Shared lemmas -/

/-- A slash-wrapped word is never the empty string. -/
theorem slash_wrapped_ne_empty (w : String) : ("/" ++ w ++ "/") ≠ "" := by
  intro h
  have h2 : ("/" ++ w ++ "/").data = ("" : String).data := by rw [h]
  rw [String.data_append, String.data_append] at h2
  simp at h2

/-- The synonym scan never yields more than 3 entries. -/
theorem scan_synonyms_getD_length_le (t : String) :
    ((scan_synonyms t).getD []).length ≤ 3 := by
  unfold scan_synonyms
  cases h : firstSearch synonyms_patterns t with
  | none => simp
  | some cap => simp [List.length_take]

/-- A default-on-empty string choice is never empty when the default is not. -/
theorem ite_default_ne_empty (dflt x : String) (hd : dflt ≠ "") :
    (if x = "" then dflt else x) ≠ "" := by
  by_cases h : x = ""
  · rw [if_pos h]; exact hd
  · rw [if_neg h]; exact h

/-- A default-on-empty list choice is never empty when the default is not. -/
theorem ite_default_ne_nil (dflt x : List String) (hd : dflt ≠ []) :
    (if x = [] then dflt else x) ≠ [] := by
  by_cases h : x = []
  · rw [if_pos h]; exact hd
  · rw [if_neg h]; exact h

/-- Length bound for a default-on-empty list choice. -/
theorem ite_default_length_le (dflt x : List String) (n : Nat)
    (hd : dflt.length ≤ n) (hx : x.length ≤ n) :
    (if x = [] then dflt else x).length ≤ n := by
  by_cases h : x = []
  · rw [if_pos h]; exact hd
  · rw [if_neg h]; exact hx

/-! ## The claims -/

/-- Claim C2 (confirmed): a function wrapped with `max_retries=3`,
`delay=1.0`, `backoff_factor=2.0` that raises a retried exception on every
attempt is invoked exactly 4 times, sleeps 1.0, 2.0, 4.0 between attempts,
and the last exception is re-raised. -/
theorem retry_backoff_exhausts {α : Type} (exceptions : Exc → Bool)
    (f : Nat → Except Exc α) (errs : Nat → Exc)
    (hf : ∀ n, f n = .error (errs n)) (hr : ∀ n, exceptions (errs n) = true) :
    retry_on_failure 3 1 2 exceptions f = (.error (errs 3), 4, [1, 2, 4]) := by
  have e3 : (3 : Nat) = 2 + 1 := rfl
  simp only [retry_on_failure, e3, retryLoop, hf, hr, if_true]
  norm_num

/-- Witness for C2 at a concrete always-failing function. -/
theorem retry_backoff_exhausts_witness :
    retry_on_failure 3 1 2 openai_retry_exceptions
        (fun _ => (.error .timeoutError : Except Exc Unit))
      = (.error .timeoutError, 4, [1, 2, 4]) :=
  retry_backoff_exhausts openai_retry_exceptions _ (fun _ => .timeoutError)
    (fun _ => rfl) (fun _ => rfl)

/-- Claim C1 (confirmed): a failure raised by the request body of
`_make_api_request` — in particular a 4xx upstream status or a 200 response
whose body is not valid JSON — surfaces to the caller at the `await` after
exactly one execution of the body, with no retry attempts and no sleeps.
`validate_api_key`'s wrapper is synchronous, so the retry loop only ever
sees the successful synchronous return of the un-awaited coroutine: no
exception raised by the body is ever retried, and in particular retries
never happen for the non-transient failures. -/
theorem nontransient_failures_surface_immediately (key : Option String)
    (hkey : missing_api_key key = false) (o : HttpOutcome) (e : Exc)
    (h : make_api_request_once o = .error e) :
    make_api_request_awaited key o = (.error e, 1, []) := by
  have hv : validate_api_key_call key o = .ok o := by
    simp [validate_api_key_call, hkey]
  have e3 : Config_MAX_RETRIES = 2 + 1 := rfl
  simp only [make_api_request_awaited, make_api_request_call, retry_on_failure,
    e3, retryLoop, log_execution_time_call, hv]
  rw [h]

/-- Witness for C1: with a configured key, a 400 response and a malformed
200 body each surface at the caller's `await` after a single body execution
and no sleeps. -/
theorem nontransient_failures_surface_immediately_witness :
    missing_api_key (some "sk-test") = false
    ∧ make_api_request_awaited (some "sk-test") (.response 400 "Bad request")
        = (.error (.apiException (some 400) none), 1, [])
    ∧ make_api_request_awaited (some "sk-test") (.response 200 "not json")
        = (.error (.apiException (some 200) none), 1, []) :=
  ⟨rfl,
    nontransient_failures_surface_immediately (some "sk-test") rfl _ _ rfl,
    nontransient_failures_surface_immediately (some "sk-test") rfl _ _ rfl⟩

/-- Claim C3, counterexample: on scenario B the greedy `corrected` capture
runs to the end of the line, so the corrected text is NOT the label-stripped
sentence `She has a cat.`. -/
theorem grammar_scenarioB_cex :
    (parse_grammar_from_text
        "Corrected: She has a cat. Errors: subject-verb agreement"
        "She have a cat.").correctedText
      ≠ "She has a cat." := by
  decide

/-- Claim C3 as amended: scenario B yields the whole remainder of the line
(including the `Errors:` tail) as corrected text, and the single-element
error list `["subject-verb agreement"]`. -/
theorem grammar_scenarioB_amended :
    parse_grammar_from_text
        "Corrected: She has a cat. Errors: subject-verb agreement"
        "She have a cat."
      = { correctedText := "She has a cat. Errors: subject-verb agreement",
          errors := ["subject-verb agreement"] } := by
  rfl

/-- Claim C4, counterexample: for the response text `-5` the extractor finds
the digit run `5`, which is already in range, so the result is not 0. -/
theorem ai_probability_minus5_cex :
    check_ai_probability_of_text "-5" ≠ 0 := by decide

/-- Claim C4 as amended: `150` is clamped to 100; for `-5` the leading minus
sign is ignored and the digit run `5` is returned unchanged (it is inside
the clamping range). -/
theorem ai_probability_clamping_amended :
    check_ai_probability_of_text "150" = 100
    ∧ check_ai_probability_of_text "-5" = 5 := by
  refine ⟨rfl, rfl⟩

/-- Claim C5, counterexample: with response `Errors: wrong tense usage` and
original `Hi` the corrected text equals the original (case-insensitively),
yet the error list is the scanned one, not the sentinel. -/
theorem grammar_no_errors_sentinel_cex :
    pyLower (parse_grammar_from_text "Errors: wrong tense usage" "Hi").correctedText
      = pyLower "Hi"
    ∧ (parse_grammar_from_text "Errors: wrong tense usage" "Hi").errors
      ≠ ["No grammar errors found"] := by
  refine ⟨rfl, by decide⟩

/-- Claim C5 as amended: whenever the error-pattern scan recovers no entries
and the recovered corrected text is case-insensitively identical to the
original input, the error list is exactly `["No grammar errors found"]`. -/
theorem grammar_no_errors_sentinel_amended (resp orig : String)
    (hscan : (scan_errors resp).getD [] = [])
    (heq : pyLower (parse_grammar_from_text resp orig).correctedText = pyLower orig) :
    (parse_grammar_from_text resp orig).errors = ["No grammar errors found"] := by
  have hc : pyLower (grammar_corrected resp orig) = pyLower orig := heq
  simp only [parse_grammar_from_text, grammar_errors, hscan]
  simp [hc]

/-- Witness for the amended C5. -/
theorem grammar_no_errors_sentinel_witness :
    (scan_errors "Corrected: hello").getD [] = []
    ∧ (parse_grammar_from_text "Corrected: hello" "Hello").errors
        = ["No grammar errors found"] :=
  ⟨rfl, grammar_no_errors_sentinel_amended "Corrected: hello" "Hello" rfl rfl⟩

/-- Claim C6 (confirmed): with no recognizable translation, pronunciation or
synonym pattern and no usable short line, flashcard recovery returns — the
embedding is a total function, so no exception is possible — the literal
translation sentinel, the slash-wrapped word, and the fixed 3-item generic
synonym list, with no empty field. -/
theorem flashcard_default_sentinels (resp word : String)
    (ht : scan_translation resp = none) (hp : scan_pronunciation resp = none)
    (hs : scan_synonyms resp = none) (hl : lineFallback resp word = none) :
    parse_flashcard_from_text resp word
      = { word := word, translatedWord := "Translation not available",
          pronunciation := "/" ++ word ++ "/", synonyms := default_synonyms }
    ∧ ("/" ++ word ++ "/") ≠ ""
    ∧ default_synonyms.length = 3 := by
  refine ⟨?_, slash_wrapped_ne_empty word, rfl⟩
  simp [parse_flashcard_from_text, flashcard_translated, flashcard_pronunciation,
    flashcard_synonyms, ht, hp, hs, hl]

/-- Witness for C6 at the empty response. -/
theorem flashcard_default_sentinels_witness :
    scan_translation "" = none ∧ scan_pronunciation "" = none
    ∧ scan_synonyms "" = none ∧ lineFallback "" "hello" = none
    ∧ parse_flashcard_from_text "" "hello"
        = { word := "hello", translatedWord := "Translation not available",
            pronunciation := "/" ++ "hello" ++ "/", synonyms := default_synonyms } :=
  ⟨rfl, rfl, rfl, rfl, (flashcard_default_sentinels "" "hello" rfl rfl rfl rfl).1⟩

/-- Claim C7, counterexample: the span `ab, c, d, e` holds 4 comma-separated
candidates, but the one-character ones are discarded before the cap, so the
parsed synonyms list has 1 entry, not 3. -/
theorem synonym_cap_cex :
    firstSearch synonyms_patterns "Synonyms: ab, c, d, e" = some "ab, c, d, e"
    ∧ (pySplit (fun c => c = ',' || c = ';') (pyStrip "ab, c, d, e")).length = 4
    ∧ (parse_flashcard_from_text "Synonyms: ab, c, d, e" "test").synonyms = ["ab"]
    ∧ ¬((parse_flashcard_from_text "Synonyms: ab, c, d, e" "test").synonyms.length = 3) := by
  refine ⟨rfl, rfl, rfl, by decide⟩

/-- Claim C7 as amended: when a synonym pattern matches and at least 4
candidates survive the cleanup filter (non-empty and longer than one
character after stripping), the parsed synonyms list has exactly 3 entries. -/
theorem synonym_cap_amended (resp word cap : String)
    (hscan : firstSearch synonyms_patterns resp = some cap)
    (hlen : 4 ≤ (synItems (pyStrip cap)).length) :
    (parse_flashcard_from_text resp word).synonyms.length = 3 := by
  have hsome : scan_synonyms resp = some ((synItems (pyStrip cap)).take 3) := by
    simp [scan_synonyms, hscan]
  have htake : ((synItems (pyStrip cap)).take 3).length = 3 := by
    rw [List.length_take]; omega
  show (flashcard_synonyms resp).length = 3
  simp only [flashcard_synonyms, hsome, Option.getD_some]
  rw [if_neg]
  · exact htake
  · intro h
    rw [h] at htake
    simp at htake

/-- Witness for the amended C7. -/
theorem synonym_cap_amended_witness :
    firstSearch synonyms_patterns "Synonyms: alpha, beta, gamma, delta"
      = some "alpha, beta, gamma, delta"
    ∧ 4 ≤ (synItems (pyStrip "alpha, beta, gamma, delta")).length
    ∧ (parse_flashcard_from_text "Synonyms: alpha, beta, gamma, delta" "test").synonyms.length
        = 3 :=
  ⟨rfl, by decide,
    synonym_cap_amended "Synonyms: alpha, beta, gamma, delta" "test"
      "alpha, beta, gamma, delta" rfl (by decide)⟩

/-- Claim C8 (confirmed): on a response missing `choices`, with empty
`choices`, or whose first choice carries a function call with non-JSON
`arguments`, structured extraction returns the no-payload result `none` and
raises nothing (the three internal exception kinds are caught; no
`TypeError` escapes on these shapes). -/
theorem extract_function_response_malformed (api : Json)
    (h : MalformedApiResponse api) :
    extract_function_response api = .ok none := by
  rcases h with ⟨fields, rfl, hlook⟩ | ⟨fields, rfl, hlook⟩ |
    ⟨fields, c0, rest, msg, fc, s, rfl, hc, hm, hf, hfc, ha, hjp⟩
  · simp [extract_function_response, extract_function_response_body, pyIn, hlook]
  · simp [extract_function_response, extract_function_response_body, pyIn,
      pyGetStr, pyTruthy, hlook]
  · have hfcE : fc.isEmpty = false := by
      cases fc with
      | nil => exact absurd rfl hfc
      | cons a l => rfl
    simp [extract_function_response, extract_function_response_body, pyIn,
      pyGetStr, pyGetNat, pyTruthy, hc, hm, hf, ha, hjp, hfcE]

/-- Witness for C8 at a dictionary with no `choices` key. -/
theorem extract_function_response_malformed_witness :
    MalformedApiResponse (.obj [("id", .str "x")])
    ∧ extract_function_response (.obj [("id", .str "x")]) = .ok none :=
  ⟨Or.inl ⟨[("id", .str "x")], rfl, rfl⟩,
    extract_function_response_malformed _ (Or.inl ⟨[("id", .str "x")], rfl, rfl⟩)⟩

/-- Claim C9 (confirmed): constructing the client with an absent credential
(unset or empty) fails immediately with the configuration error; no client
state — and hence no session or request — is produced. -/
theorem missing_api_key_construction_fails (cfg : ConfigState)
    (h : cfg.OPENAI_API_KEY = none ∨ cfg.OPENAI_API_KEY = some "") :
    OpenAIClient_init cfg = .error (.missingKey "OPENAI_API_KEY") := by
  unfold OpenAIClient_init
  rcases h with h | h <;> simp [missing_api_key, h]

/-- Witness for C9 with the credential unset. -/
theorem missing_api_key_construction_fails_witness :
    OpenAIClient_init { OPENAI_API_KEY := none }
      = .error (.missingKey "OPENAI_API_KEY") :=
  missing_api_key_construction_fails { OPENAI_API_KEY := none } (Or.inl rfl)

/-- Claim C10 (confirmed): flashcard text recovery always returns a record
whose `word` is the input word, whose `translatedWord` and `pronunciation`
are non-empty, and whose `synonyms` list is non-empty with at most 3
entries. -/
theorem flashcard_result_invariant (text_response word : String) :
    (parse_flashcard_from_text text_response word).word = word
    ∧ (parse_flashcard_from_text text_response word).translatedWord ≠ ""
    ∧ (parse_flashcard_from_text text_response word).pronunciation ≠ ""
    ∧ (parse_flashcard_from_text text_response word).synonyms ≠ []
    ∧ (parse_flashcard_from_text text_response word).synonyms.length ≤ 3 := by
  refine ⟨rfl, ?_, ?_, ?_, ?_⟩
  · show flashcard_translated text_response word ≠ ""
    unfold flashcard_translated
    exact ite_default_ne_empty _ _ (by decide)
  · show flashcard_pronunciation text_response word ≠ ""
    unfold flashcard_pronunciation
    exact ite_default_ne_empty _ _ (slash_wrapped_ne_empty word)
  · show flashcard_synonyms text_response ≠ []
    unfold flashcard_synonyms
    exact ite_default_ne_nil _ _ (by decide)
  · show (flashcard_synonyms text_response).length ≤ 3
    unfold flashcard_synonyms
    exact ite_default_length_le _ _ 3 (by decide)
      (scan_synonyms_getD_length_le text_response)
